import Mathlib

/-!
Shallow embedding of the income-tax chatbot in
`src/routes/demo/start.chatbot.tsx` (TanStack Start demo).

The file holds three concatenated variants of the same React component.
Variant 1 (the primary one) and variant 2 are the two reference variants the
spec compares. The core logic is `handleBotResponse`, a dispatcher over a
four-value conversation state that matches keywords and one regular
expression against the utterance and returns a canned reply while updating
the state. We embed it as a pure function
`ChatState → String → String × ChatState`, embed the `handleSend` shell function
as a pure step on a session record, and embed the slot regex

  hours:\s*(\d+\.?\d*).*rate:\s*(\d+\.?\d*).*state:\s*(\w+).*county:\s*(\w+).*city:\s*(\w+)   (flag i)

as a backtracking matcher with JavaScript leftmost-greedy semantics.

JavaScript numbers are modelled as IEEE-754 binary64 (`F64`): `parseFloat`
and the numeric literals round the exact decimal to the nearest double
(ties to even), every arithmetic operation rounds its exact result the same
way (`roundF64`), and `toFixed(2)` follows the ECMA algorithm, including
the `NaN` and `Infinity` outputs and the switch to shortest-round-trip
exponential notation at and above 10^21. Alongside, `JsNum` with
`specParseFloat`/`specToFixed2` is the exact-decimal arithmetic the claim
sentence about the tax computation reads naturally as; the two disagree
(for instance at rate 1.005), which settles C1.
-/

/-- `sender` field of a `Message`: the TS two-value string union (user or bot). -/
inductive Sender where
  | user
  | bot
deriving DecidableEq, Repr

/-- The TS `Message` interface: `{ sender, text }`. -/
structure Message where
  sender : Sender
  text : String
deriving DecidableEq, Repr

/-- The TS `ChatState` union type. -/
inductive ChatState where
  | idle
  | awaiting_tax_request
  | awaiting_tax_details
  | awaiting_anything_else
deriving DecidableEq, Repr

/-- `leadsWith ns hs` : the list `ns` is an initial segment of `hs`. -/
def leadsWith : List Char → List Char → Bool
  | [], _ => true
  | _ :: _, [] => false
  | n :: ns, h :: hs => n == h && leadsWith ns hs

/-- `hasSub ns hs` : the list `ns` occurs contiguously somewhere in `hs`. -/
def hasSub : List Char → List Char → Bool
  | ns, [] => leadsWith ns []
  | ns, h :: hs => leadsWith ns (h :: hs) || hasSub ns hs

/-- JS `String.prototype.includes`: `needle` occurs contiguously in `hay`. -/
def containsSub (hay needle : String) : Bool :=
  hasSub needle.toList hay.toList

/-- JS `String.prototype.toLowerCase`, modelled character-wise (the inputs
the engine inspects are ASCII, where `Char.toLower` agrees with JS). -/
def jsToLower (s : String) : String :=
  String.mk (s.toList.map Char.toLower)

/-- JS regex class `\s` (also the set trimmed by `String.prototype.trim`):
whitespace and line terminators. -/
def jsIsSpace (c : Char) : Bool :=
  let n := c.toNat
  n == 32 || n == 9 || n == 10 || n == 11 || n == 12 || n == 13 ||
  n == 0xa0 || n == 0x1680 || (0x2000 ≤ n && n ≤ 0x200a) ||
  n == 0x2028 || n == 0x2029 || n == 0x202f || n == 0x205f ||
  n == 0x3000 || n == 0xfeff

/-- JS regex class `\d`. -/
def jsIsDigit (c : Char) : Bool :=
  48 ≤ c.toNat && c.toNat ≤ 57

/-- JS regex class `\w`. -/
def jsIsWord (c : Char) : Bool :=
  jsIsDigit c || (65 ≤ c.toNat && c.toNat ≤ 90) ||
  (97 ≤ c.toNat && c.toNat ≤ 122) || c.toNat == 95

/-- JS regex `.` without the `s` flag: any char except a line terminator. -/
def jsIsDot (c : Char) : Bool :=
  !(c.toNat == 10 || c.toNat == 13 || c.toNat == 0x2028 || c.toNat == 0x2029)

/-- Components of the slot regex. `lit` is a case-insensitive literal
(flag `i`), `wsNum` is `\s*(\d+\.?\d*)`, `wsWord` is `\s*(\w+)`,
`gap` is `.*`. -/
inductive Tok where
  | lit (s : String)
  | wsNum
  | wsWord
  | gap
deriving Repr

/-- The slot regex of `awaiting_tax_details`, token by token. -/
def taxToks : List Tok :=
  [Tok.lit "hours:", Tok.wsNum, Tok.gap,
   Tok.lit "rate:", Tok.wsNum, Tok.gap,
   Tok.lit "state:", Tok.wsWord, Tok.gap,
   Tok.lit "county:", Tok.wsWord, Tok.gap,
   Tok.lit "city:", Tok.wsWord]

/-- Match a case-insensitive literal at the head of the input, returning the
rest on success (regex flag `i` folds both sides). -/
def matchLitCI : List Char → List Char → Option (List Char)
  | [], cs => some cs
  | _ :: _, [] => none
  | p :: ps, c :: cs =>
      if c.toLower == p.toLower then matchLitCI ps cs else none

/-- Match `\s*(\d+\.?\d*)` at the head of the input: greedy, which is
faithful here because `\s` and `\d` are disjoint and every token that
follows the capture in the pattern accepts digit and dot characters.
Returns the captured characters and the rest. -/
def takeNum (cs : List Char) : Option (List Char × List Char) :=
  let cs1 := cs.dropWhile jsIsSpace
  let ds := cs1.takeWhile jsIsDigit
  let cs2 := cs1.drop ds.length
  if ds.isEmpty then none
  else
    match cs2 with
    | '.' :: cs3 =>
        let fs := cs3.takeWhile jsIsDigit
        some (ds ++ '.' :: fs, cs3.drop fs.length)
    | _ => some (ds, cs2)

/-- Match `\s*(\w+)` at the head of the input (greedy; faithful because `\s`
and `\w` are disjoint and `.*` accepts word characters). -/
def takeWord (cs : List Char) : Option (List Char × List Char) :=
  let cs1 := cs.dropWhile jsIsSpace
  let ws := cs1.takeWhile jsIsWord
  if ws.isEmpty then none else some (ws, cs1.drop ws.length)

/-- Backtracking matcher for a token list at a fixed start position, with
JS greedy semantics: `gap` (`.*`) first consumes the maximal run of
non-line-terminator characters and gives back one character at a time.
Returns the captures in pattern order. -/
def matchToks : List Tok → List Char → Option (List (List Char))
  | [], _ => some []
  | Tok.lit s :: rest, cs =>
      match matchLitCI s.toList cs with
      | some cs' => matchToks rest cs'
      | none => none
  | Tok.wsNum :: rest, cs =>
      match takeNum cs with
      | some (cap, cs') => (matchToks rest cs').map (cap :: ·)
      | none => none
  | Tok.wsWord :: rest, cs =>
      match takeWord cs with
      | some (cap, cs') => (matchToks rest cs').map (cap :: ·)
      | none => none
  | Tok.gap :: rest, cs =>
      let run := (cs.takeWhile jsIsDot).length
      (List.range (run + 1)).findSome? fun i => matchToks rest (cs.drop (run - i))

/-- JS `String.prototype.match` without the `g` flag: try each start
position left to right, and at the first position where the whole pattern
matches, return its captures. -/
def findMatch : List Char → Option (List (List Char))
  | [] => matchToks taxToks []
  | c :: cs =>
      match matchToks taxToks (c :: cs) with
      | some caps => some caps
      | none => findMatch cs

/-- The five captured slots of the tax regex, named as in the source
(`match[1]` … `match[5]`). -/
structure TaxSlots where
  hours : String
  rate : String
  stateName : String
  countyName : String
  cityName : String
deriving DecidableEq, Repr

/-- `userInput.match(regex)` in the `awaiting_tax_details` branch, packaged
as the five named captures. -/
def taxMatch (userInput : String) : Option TaxSlots :=
  match findMatch userInput.toList with
  | some [h, r, s, c, ci] =>
      some ⟨String.mk h, String.mk r, String.mk s, String.mk c, String.mk ci⟩
  | _ => none

/-- Digits of a `\d*` run read as a natural number. -/
def digitsToNat (ds : List Char) : Nat :=
  ds.foldl (fun a c => 10 * a + (c.toNat - 48)) 0

/-- Exact (unrounded) rational arithmetic on numerator/denominator pairs:
the idealized reading of the spec sentence "compute grossPay = hours * rate;
taxes = grossPay * totalRate; netPay = grossPay - taxes" as real-number
arithmetic. This is what the claim about the tax computation asserts; the
code instead computes in binary64 (`F64` below), and the two disagree.
`toRat` below ties these operations to `ℚ`. -/
structure JsNum where
  num : Int
  den : Nat
deriving DecidableEq, Repr

/-- Exact product. -/
def JsNum.mul (a b : JsNum) : JsNum :=
  { num := a.num * b.num, den := a.den * b.den }

/-- Exact sum. -/
def JsNum.add (a b : JsNum) : JsNum :=
  { num := a.num * b.den + b.num * a.den, den := a.den * b.den }

/-- Exact difference. -/
def JsNum.sub (a b : JsNum) : JsNum :=
  { num := a.num * b.den - b.num * a.den, den := a.den * b.den }

/-- The rational value a `JsNum` denotes. -/
def JsNum.toRat (a : JsNum) : ℚ :=
  (a.num : ℚ) / (a.den : ℚ)

/-- The exact-decimal reading of "parse hours and rate": the capture shape
`\d+\.?\d*` read as the decimal number it writes, unrounded. -/
def specParseFloat (cs : List Char) : JsNum :=
  let ip := cs.takeWhile jsIsDigit
  let rest := cs.drop ip.length
  match rest with
  | '.' :: fs => { num := digitsToNat (ip ++ fs), den := 10 ^ fs.length }
  | _ => { num := digitsToNat ip, den := 1 }

/-- Zero-padded two-digit rendering of a number below 100. -/
def twoDigits (k : Nat) : String :=
  if k < 10 then "0" ++ Nat.repr k else Nat.repr k

/-- The exact-decimal reading of "formats each amount to exactly two
decimal places", applied to the unrounded rational: `n = ⌊q * 100 + 1/2⌋`
picks the nearest multiple of 1/100 (ties up), printed with a decimal
point before the last two digits. -/
def specToFixed2 (a : JsNum) : String :=
  let n := (Int.fdiv (200 * a.num + a.den) (2 * a.den)).toNat
  Nat.repr (n / 100) ++ "." ++ twoDigits (n % 100)

/-- Fueled `⌊log₂ n⌋` (plain structural recursion so the kernel can
evaluate it; `Nat.log2` itself is defined by well-founded recursion). -/
def nlog2Go : Nat → Nat → Nat
  | 0, _ => 0
  | fuel + 1, n => if 2 ≤ n then nlog2Go fuel (n / 2) + 1 else 0

/-- `⌊log₂ n⌋` for `n ≥ 1` (and 0 at 0): `n` itself is always enough fuel. -/
def natLog2 (n : Nat) : Nat :=
  nlog2Go n n

/-- IEEE-754 binary64 ("double"), the number type of JS. A finite double
is `(−1)^neg * m * 2^e` in canonical form: either `2^52 ≤ m < 2^53`
(normal) or `e = −1074` and `m < 2^52` (subnormal or zero). The sign of
zero is not tracked: −0 and +0 render identically under `toFixed` and the
sign of a zero can never reach any reply the engine builds. -/
inductive F64 where
  | finite (neg : Bool) (m : Nat) (e : Int)
  | inf
  | ninf
  | nan
deriving Repr

/-- Round the exact rational `p / d` (`d ≠ 0`) to the nearest binary64,
ties to even, overflowing to the infinities: the IEEE-754 rounding JS
applies to every parsed literal and after every arithmetic operation.
`L` is the binade (`2^L ≤ |p/d| < 2^(L+1)`), the exponent is clamped at
−1074 for the subnormal range, and a mantissa that rounds up to `2^53`
is renormalized. -/
def roundF64 (p : Int) (d : Nat) : F64 :=
  if d == 0 then F64.nan
  else if p == 0 then F64.finite false 0 (-1074)
  else
    let neg := decide (p < 0)
    let P := p.natAbs
    let L : Int :=
      if d ≤ P then (natLog2 (P / d) : Int)
      else
        let j := natLog2 (d / P)
        if d ≤ P * 2 ^ j then -(j : Int) else -(j : Int) - 1
    let e : Int := max (L - 52) (-1074)
    let N := P * 2 ^ (-e).toNat
    let D := d * 2 ^ e.toNat
    let q := N / D
    let r := N % D
    let m := if 2 * r < D then q
             else if D < 2 * r then q + 1
             else if q % 2 == 0 then q else q + 1
    let m2 := if m == 2 ^ 53 then 2 ^ 52 else m
    let e2 := if m == 2 ^ 53 then e + 1 else e
    if 0 ≤ e2 ∧ 2 ^ 1024 ≤ m2 * 2 ^ e2.toNat then
      (if neg then F64.ninf else F64.inf)
    else F64.finite neg m2 e2

/-- The exact rational value of a finite double, as a numerator and a
(power of two) denominator. -/
def F64.toPair (neg : Bool) (m : Nat) (e : Int) : Int × Nat :=
  ((if neg then -1 else 1) * (m : Int) * 2 ^ e.toNat, 2 ^ (-e).toNat)

/-- JS multiplication on doubles: NaN propagates, infinities multiply by
sign with `0 * ∞ = NaN`, and finite products are the exact product rounded. -/
def F64.mul : F64 → F64 → F64
  | F64.nan, _ => F64.nan
  | _, F64.nan => F64.nan
  | F64.inf, F64.inf => F64.inf
  | F64.inf, F64.ninf => F64.ninf
  | F64.ninf, F64.inf => F64.ninf
  | F64.ninf, F64.ninf => F64.inf
  | F64.inf, F64.finite neg m _ =>
      if m == 0 then F64.nan else if neg then F64.ninf else F64.inf
  | F64.finite neg m _, F64.inf =>
      if m == 0 then F64.nan else if neg then F64.ninf else F64.inf
  | F64.ninf, F64.finite neg m _ =>
      if m == 0 then F64.nan else if neg then F64.inf else F64.ninf
  | F64.finite neg m _, F64.ninf =>
      if m == 0 then F64.nan else if neg then F64.inf else F64.ninf
  | F64.finite n1 m1 e1, F64.finite n2 m2 e2 =>
      let E := e1 + e2
      roundF64 ((if n1 != n2 then -1 else 1) * (m1 : Int) * (m2 : Int) * 2 ^ E.toNat)
        (2 ^ (-E).toNat)

/-- JS unary minus on doubles. -/
def F64.neg : F64 → F64
  | F64.finite n m e => F64.finite (!n) m e
  | F64.inf => F64.ninf
  | F64.ninf => F64.inf
  | F64.nan => F64.nan

/-- JS addition on doubles: NaN propagates, `∞ + (−∞) = NaN`, an infinity
absorbs finite addends, and finite sums are the exact sum rounded. -/
def F64.add : F64 → F64 → F64
  | F64.nan, _ => F64.nan
  | _, F64.nan => F64.nan
  | F64.inf, F64.ninf => F64.nan
  | F64.ninf, F64.inf => F64.nan
  | F64.inf, _ => F64.inf
  | F64.ninf, _ => F64.ninf
  | F64.finite _ _ _, F64.inf => F64.inf
  | F64.finite _ _ _, F64.ninf => F64.ninf
  | F64.finite n1 m1 e1, F64.finite n2 m2 e2 =>
      let a := F64.toPair n1 m1 e1
      let b := F64.toPair n2 m2 e2
      roundF64 (a.1 * (b.2 : Int) + b.1 * (a.2 : Int)) (a.2 * b.2)

/-- JS subtraction on doubles: `x − y` is `x + (−y)` exactly, per ECMA. -/
def F64.sub (a b : F64) : F64 :=
  F64.add a (F64.neg b)

instance : Mul F64 := ⟨F64.mul⟩

instance : Add F64 := ⟨F64.add⟩

instance : Sub F64 := ⟨F64.sub⟩

/-- JS `parseFloat` on the capture shape `\d+\.?\d*`: the exact decimal
value rounded to the nearest binary64 (ties to even). Mainstream engines
round correctly; the ECMA latitude beyond 20 significant digits is not
exercised by any of them. -/
def jsParseFloat (cs : List Char) : F64 :=
  let ip := cs.takeWhile jsIsDigit
  let rest := cs.drop ip.length
  match rest with
  | '.' :: fs => roundF64 (digitsToNat (ip ++ fs) : Int) (10 ^ fs.length)
  | _ => roundF64 (digitsToNat ip : Int) 1

/-- Distance (doubled, to stay integral) between the candidate decimal
`s * 10^(n−k)` and the double value `M`, for choosing the closest. -/
def tsDist (M k : Nat) (sn : Nat × Nat) : Nat :=
  ((2 * sn.1 * 10 ^ (sn.2 - k) : Int) - (2 * M : Int)).natAbs

/-- Candidate `k`-digit decimals `s * 10^(n−k)` inside the rounding
interval of the double value `M` (half-ulp each side, closed exactly when
the mantissa is even): the bounds of the `s` range and the two integers
nearest `M / 10^(n−k)`. -/
def tsCandsAt (M ulpLo ulpHi : Nat) (inclusive : Bool) (k n : Nat) : List (Nat × Nat) :=
  if n < k then []
  else
    let j := n - k
    let T := 2 * 10 ^ j
    let lo2 := 2 * M - ulpLo
    let hi2 := 2 * M + ulpHi
    let sMin0 := if lo2 % T == 0 then (if inclusive then lo2 / T else lo2 / T + 1)
                 else lo2 / T + 1
    let sMax0 := if hi2 % T == 0 then (if inclusive then hi2 / T else hi2 / T - 1)
                 else hi2 / T
    let sMin := max sMin0 (10 ^ (k - 1))
    let sMax := min sMax0 (10 ^ k - 1)
    let r0 := M / 10 ^ j
    (([sMin, sMax, r0, r0 + 1].filter fun s => sMin ≤ s && s ≤ sMax).map fun s => (s, n))

/-- Among candidate `(s, n)` pairs pick the decimal closest to `M`, ties
preferring an even `s` (the ECMA `Number::toString` choice). -/
def tsPick (M k : Nat) : List (Nat × Nat) → Option (Nat × Nat)
  | [] => none
  | c :: cs =>
      match tsPick M k cs with
      | none => some c
      | some b =>
          if tsDist M k c < tsDist M k b then some c
          else if tsDist M k b < tsDist M k c then some b
          else if c.1 % 2 == 0 then some c else some b

/-- Search the least number of significant digits `k` (1 to 17; 17 always
suffices for a double) admitting a decimal that rounds back to the value,
returning `(k, s, n)` per ECMA `Number::toString`. -/
def tsSearch (M ulpLo ulpHi : Nat) (inclusive : Bool) (n0 : Nat) :
    Nat → Nat → Option (Nat × Nat × Nat)
  | _, 0 => none
  | k, fuel + 1 =>
      match tsPick M k (tsCandsAt M ulpLo ulpHi inclusive k (n0 - 1) ++
                        tsCandsAt M ulpLo ulpHi inclusive k n0 ++
                        tsCandsAt M ulpLo ulpHi inclusive k (n0 + 1)) with
      | some (s, n) => some (k, s, n)
      | none => tsSearch M ulpLo ulpHi inclusive n0 (k + 1) fuel

/-- ECMA `Number::toString` for a positive finite double at or above 10^21
(the only values `toFixed` hands it): the shortest decimal `s * 10^(n−k)`
that rounds back to the double, closest preferred, ties to even `s`,
rendered in exponential notation (always, since `n ≥ 22 > 21`). The empty
fallback is unreachable because 17 digits round-trip every double. -/
def jsToStringBig (m : Nat) (e : Int) : String :=
  let M := m * 2 ^ e.toNat
  let ulpHi := 2 ^ e.toNat
  let ulpLo := if m == 2 ^ 52 then 2 ^ e.toNat / 2 else 2 ^ e.toNat
  let inclusive := m % 2 == 0
  let n0 := (Nat.repr M).length
  match tsSearch M ulpLo ulpHi inclusive n0 1 17 with
  | some (k, s, n) =>
      let ds := (Nat.repr s).toList
      if k == 1 then String.mk ds ++ "e+" ++ Nat.repr (n - 1)
      else String.mk (ds.take 1) ++ "." ++ String.mk (ds.drop 1) ++ "e+" ++ Nat.repr (n - 1)
  | none => ""

/-- JS `Number.prototype.toFixed(2)`, the ECMA algorithm: `"NaN"` for NaN,
sign extracted first, `"Infinity"` for infinities, `ToString` (exponential
here) for values at or above 10^21, and otherwise the integer `n` nearest
`100 * x` (ties away from zero) printed with a decimal point before its
last two digits. -/
def jsToFixed2 : F64 → String
  | F64.nan => "NaN"
  | F64.inf => "Infinity"
  | F64.ninf => "-Infinity"
  | F64.finite neg m e =>
      let sgn := if neg && m != 0 then "-" else ""
      if 0 ≤ e ∧ 10 ^ 21 ≤ m * 2 ^ e.toNat then sgn ++ jsToStringBig m e
      else
        let n := (200 * m * 2 ^ e.toNat + 2 ^ (-e).toNat) / (2 * 2 ^ (-e).toNat)
        sgn ++ Nat.repr (n / 100) ++ "." ++ twoDigits (n % 100)

/-- Reply of the `tax` branch in `awaiting_tax_request` and `awaiting_anything_else`. -/
def detailsPrompt : String :=
  "Sure! Please include your information like so, \"hours: 40, rate: 35, state: NY, county: Kings, city: NYC\"."

/-- Fallthrough reply of `awaiting_tax_request`. -/
def taxRequestPrompt : String :=
  "I can help you calculate taxes. Please type \"please calculate my taxes\" to begin."

/-- Reply of `awaiting_tax_details` when the regex does not match. -/
def retryPrompt : String :=
  "Please include your information like so, \"hours: 40, rate: 35, state: NY, county: Kings, city: NYC\"."

/-- Reply of the `no` branches. -/
def thanksMsg : String :=
  "Thanks, have a nice day!"

/-- Reply of the `awaiting_anything_else` fallthrough and of the `default` case. -/
def okayMsg : String :=
  "Okay! Let me know if you would like me to calculate taxes again."

/-- The initial bot greeting set by the mount effect. -/
def greeting : String :=
  "Hello, my name is Jacob. How can I help you?"

/-- The template-literal reply of the matched `awaiting_tax_details` branch
in variant 1 (and variant 3): lines carry no leading indentation. -/
def taxReply (sl : TaxSlots) : String :=
  let hours := jsParseFloat sl.hours.toList
  let rate := jsParseFloat sl.rate.toList
  let federalRate : F64 := roundF64 12 100
  let stateRate : F64 := roundF64 5 100
  let totalRate := federalRate + stateRate
  let grossPay := hours * rate
  let taxes := grossPay * totalRate
  let netPay := grossPay - taxes
  "Estimated taxes for " ++ sl.cityName ++ ", " ++ sl.countyName ++ " County, " ++
    sl.stateName ++ ":\nGross Pay: $" ++ jsToFixed2 grossPay ++ "\nTaxes: $" ++
    jsToFixed2 taxes ++ "\nNet Pay: $" ++ jsToFixed2 netPay ++
    "\n(Note: this is an estimate.)\n\nWould you like help with anything else?"

/-- The template-literal reply of the matched `awaiting_tax_details` branch
in variant 2: every line after the first carries the source file 12-space
indentation, which a template literal preserves. -/
def taxReply2 (sl : TaxSlots) : String :=
  let hours := jsParseFloat sl.hours.toList
  let rate := jsParseFloat sl.rate.toList
  let federalRate : F64 := roundF64 12 100
  let stateRate : F64 := roundF64 5 100
  let totalRate := federalRate + stateRate
  let grossPay := hours * rate
  let taxes := grossPay * totalRate
  let netPay := grossPay - taxes
  "Estimated taxes for " ++ sl.cityName ++ ", " ++ sl.countyName ++ " County, " ++
    sl.stateName ++ ":\n            Gross Pay: $" ++ jsToFixed2 grossPay ++
    "\n            Taxes: $" ++ jsToFixed2 taxes ++
    "\n            Net Pay: $" ++ jsToFixed2 netPay ++
    "\n            (Note: this is an estimate.)\n\n            Would you like help with anything else?"

/-- `handleBotResponse` of variant 1 (identical logic in variant 3): the
conversation engine as a pure function. The TS function returns the reply
and mutates the state via `setState`; we return both. Branches where the TS
code returns without calling `setState` keep the state unchanged. -/
def handleBotResponse (state : ChatState) (userInput : String) : String × ChatState :=
  let lowerInput := jsToLower userInput
  match state with
  | ChatState.awaiting_tax_request =>
      if containsSub lowerInput "tax" then (detailsPrompt, ChatState.awaiting_tax_details)
      else if containsSub lowerInput "no" then (thanksMsg, ChatState.awaiting_anything_else)
      else (taxRequestPrompt, ChatState.awaiting_tax_request)
  | ChatState.awaiting_tax_details =>
      match taxMatch userInput with
      | some sl => (taxReply sl, ChatState.awaiting_anything_else)
      | none => (retryPrompt, ChatState.awaiting_tax_details)
  | ChatState.awaiting_anything_else =>
      if containsSub lowerInput "no" then (thanksMsg, ChatState.awaiting_tax_request)
      else if containsSub lowerInput "tax" then (detailsPrompt, ChatState.awaiting_tax_details)
      else (okayMsg, ChatState.awaiting_tax_request)
  | ChatState.idle => (okayMsg, ChatState.awaiting_anything_else)

/-- `handleBotResponse` of variant 2. It differs from variant 1 in exactly
two places: in `awaiting_anything_else` the `no` branch sets the state back
to `awaiting_anything_else` instead of `awaiting_tax_request`, and the
matched tax reply is the indented `taxReply2`. -/
def handleBotResponse2 (state : ChatState) (userInput : String) : String × ChatState :=
  let lowerInput := jsToLower userInput
  match state with
  | ChatState.awaiting_tax_request =>
      if containsSub lowerInput "tax" then (detailsPrompt, ChatState.awaiting_tax_details)
      else if containsSub lowerInput "no" then (thanksMsg, ChatState.awaiting_anything_else)
      else (taxRequestPrompt, ChatState.awaiting_tax_request)
  | ChatState.awaiting_tax_details =>
      match taxMatch userInput with
      | some sl => (taxReply2 sl, ChatState.awaiting_anything_else)
      | none => (retryPrompt, ChatState.awaiting_tax_details)
  | ChatState.awaiting_anything_else =>
      if containsSub lowerInput "no" then (thanksMsg, ChatState.awaiting_anything_else)
      else if containsSub lowerInput "tax" then (detailsPrompt, ChatState.awaiting_tax_details)
      else (okayMsg, ChatState.awaiting_tax_request)
  | ChatState.idle => (okayMsg, ChatState.awaiting_anything_else)

/-- The per-session mutable data of the component: the ordered message
list and the conversation state. -/
structure Session where
  messages : List Message
  state : ChatState
deriving DecidableEq, Repr

/-- The session right after the mount effect ran: the greeting is the only
message and the state is `awaiting_tax_request`. -/
def initSession : Session :=
  { messages := [{ sender := Sender.bot, text := greeting }],
    state := ChatState.awaiting_tax_request }

/-- JS `String.prototype.trim`. -/
def jsTrim (s : String) : String :=
  String.mk (((s.toList.dropWhile jsIsSpace).reverse.dropWhile jsIsSpace).reverse)

/-- The `handleSend` shell function as a pure step: on empty-after-trim input it
returns the session unchanged (the TS code returns before touching state);
otherwise it appends the user message and the engine reply and installs
the next state the engine produced. -/
def handleSend (input : String) (sess : Session) : Session :=
  if jsTrim input = "" then sess
  else
    { messages := sess.messages ++
        [{ sender := Sender.user, text := input },
         { sender := Sender.bot, text := (handleBotResponse sess.state input).1 }],
      state := (handleBotResponse sess.state input).2 }

/-- A whole session: fold `handleSend` over the submitted inputs starting
from the freshly initialized session. -/
def runSession (inputs : List String) : Session :=
  inputs.foldl (fun sess i => handleSend i sess) initSession

/-- States reachable once initialization has set `awaiting_tax_request`. -/
inductive Reachable : ChatState → Prop where
  | init : Reachable ChatState.awaiting_tax_request
  | step (s : ChatState) (u : String) : Reachable s → Reachable (handleBotResponse s u).2

/-- The worked example utterance from the test properties of the spec. -/
def demoInput : String :=
  "hours: 40, rate: 35, state: NY, county: Kings, city: NYC"

/-- The slots the regex extracts from `demoInput`. -/
def demoSlots : TaxSlots :=
  { hours := "40", rate := "35", stateName := "NY", countyName := "Kings", cityName := "NYC" }

/-- A matched utterance on which binary64 and exact-decimal arithmetic
disagree: `parseFloat("1.005")` is the double just below 1.005, so the
program renders gross pay as `$1.00` where exact-decimal rounding of
1 * 1.005 gives `1.01`. -/
def ceInput : String :=
  "hours: 1, rate: 1.005, state: A, county: B, city: C"

/-- The state after resubmitting the same utterance `n` times starting from
`awaiting_tax_details`. -/
def resubmit (u : String) : Nat → ChatState
  | 0 => ChatState.awaiting_tax_details
  | n + 1 => (handleBotResponse (resubmit u n) u).2

/-- Helper: the engine never produces `idle` as the next state, from any
state at all. -/
theorem nextState_ne_idle (s : ChatState) (u : String) :
    (handleBotResponse s u).2 ≠ ChatState.idle := by
  cases s with
  | idle => simp [handleBotResponse]
  | awaiting_tax_request =>
      simp only [handleBotResponse]
      split
      · simp
      · split <;> simp
  | awaiting_tax_details =>
      simp only [handleBotResponse]
      cases taxMatch u <;> simp
  | awaiting_anything_else =>
      simp only [handleBotResponse]
      split
      · simp
      · split <;> simp

/-- C3: in `awaiting_tax_request`, an utterance containing "tax"
(case-insensitively) yields the details prompt and moves to
`awaiting_tax_details`; otherwise one containing "no" yields the thanks
reply and moves to `awaiting_anything_else`; otherwise the instructional
prompt is returned and the state stays `awaiting_tax_request`. The "tax"
branch needs no condition on "no", so "tax" takes precedence. -/
theorem c3_tax_request_dispatch (u : String) :
    (containsSub (jsToLower u) "tax" = true →
      handleBotResponse ChatState.awaiting_tax_request u =
        (detailsPrompt, ChatState.awaiting_tax_details)) ∧
    (containsSub (jsToLower u) "tax" = false → containsSub (jsToLower u) "no" = true →
      handleBotResponse ChatState.awaiting_tax_request u =
        (thanksMsg, ChatState.awaiting_anything_else)) ∧
    (containsSub (jsToLower u) "tax" = false → containsSub (jsToLower u) "no" = false →
      handleBotResponse ChatState.awaiting_tax_request u =
        (taxRequestPrompt, ChatState.awaiting_tax_request)) := by
  refine ⟨fun h => ?_, fun h1 h2 => ?_, fun h1 h2 => ?_⟩ <;>
    simp [handleBotResponse, *]

/-- C3 witness: "no tax" contains both keywords and takes the tax branch. -/
theorem c3_tax_request_dispatch_witness :
    handleBotResponse ChatState.awaiting_tax_request "no tax" =
      (detailsPrompt, ChatState.awaiting_tax_details) :=
  (c3_tax_request_dispatch "no tax").1 (by decide)

/-- C4: in `awaiting_anything_else`, an utterance containing "no" yields the
thanks reply and moves to `awaiting_tax_request`; otherwise one containing
"tax" yields the details prompt and moves to `awaiting_tax_details`;
otherwise the okay reply is returned and the state moves to
`awaiting_tax_request`. The "no" branch needs no condition on "tax", so
"no" takes precedence in this state. -/
theorem c4_anything_else_dispatch (u : String) :
    (containsSub (jsToLower u) "no" = true →
      handleBotResponse ChatState.awaiting_anything_else u =
        (thanksMsg, ChatState.awaiting_tax_request)) ∧
    (containsSub (jsToLower u) "no" = false → containsSub (jsToLower u) "tax" = true →
      handleBotResponse ChatState.awaiting_anything_else u =
        (detailsPrompt, ChatState.awaiting_tax_details)) ∧
    (containsSub (jsToLower u) "no" = false → containsSub (jsToLower u) "tax" = false →
      handleBotResponse ChatState.awaiting_anything_else u =
        (okayMsg, ChatState.awaiting_tax_request)) := by
  refine ⟨fun h => ?_, fun h1 h2 => ?_, fun h1 h2 => ?_⟩ <;>
    simp [handleBotResponse, *]

/-- C4 witness: "no tax" contains both keywords and takes the "no" branch. -/
theorem c4_anything_else_dispatch_witness :
    handleBotResponse ChatState.awaiting_anything_else "no tax" =
      (thanksMsg, ChatState.awaiting_tax_request) :=
  (c4_anything_else_dispatch "no tax").1 (by decide)

/-- C7: in state `idle` (the only state outside the three dispatch cases,
handled by the `default` arm) every utterance gets the okay reply and the
state moves to `awaiting_anything_else`. -/
theorem c7_idle_default (u : String) :
    handleBotResponse ChatState.idle u = (okayMsg, ChatState.awaiting_anything_else) :=
  rfl

/-- C10: the engine is deterministic: the reply and next state are a
function of the conversation state and the utterance alone. -/
theorem c10_deterministic (s1 s2 : ChatState) (u1 u2 : String)
    (hs : s1 = s2) (hu : u1 = u2) :
    handleBotResponse s1 u1 = handleBotResponse s2 u2 := by
  subst hs; subst hu; rfl

/-- C10 witness at a concrete state and utterance. -/
theorem c10_deterministic_witness :
    handleBotResponse ChatState.idle "hello" = handleBotResponse ChatState.idle "hello" :=
  c10_deterministic ChatState.idle ChatState.idle "hello" "hello" rfl rfl

/-- C2: in `awaiting_tax_details`, an utterance the slot regex does not
match always gets the fixed retry prompt with the state left at
`awaiting_tax_details`, and resubmitting it any number of times keeps
yielding that identical prompt without ever advancing the state. -/
theorem c2_no_match_retry (u : String) (h : taxMatch u = none) (n : Nat) :
    resubmit u n = ChatState.awaiting_tax_details ∧
      handleBotResponse (resubmit u n) u = (retryPrompt, ChatState.awaiting_tax_details) := by
  induction n with
  | zero => exact ⟨rfl, by simp [resubmit, handleBotResponse, h]⟩
  | succ n ih =>
      have h2 : resubmit u (n + 1) = ChatState.awaiting_tax_details := by
        show (handleBotResponse (resubmit u n) u).2 = ChatState.awaiting_tax_details
        rw [ih.2]
      refine ⟨h2, ?_⟩
      rw [h2]
      simp [handleBotResponse, h]

/-- C2 witness: a concrete unmatched utterance resubmitted a second time. -/
theorem c2_no_match_retry_witness :
    resubmit "I do not have that info" 2 = ChatState.awaiting_tax_details ∧
      handleBotResponse (resubmit "I do not have that info" 2) "I do not have that info" =
        (retryPrompt, ChatState.awaiting_tax_details) :=
  c2_no_match_retry "I do not have that info" (by decide) 2

/-- C6: submitting a string that is empty or all whitespace leaves the
session — both the message list and the state — exactly unchanged (the TS
`handleSend` returns before appending anything or calling the engine). -/
theorem c6_blank_input_noop (input : String) (sess : Session)
    (h : input.toList.all jsIsSpace = true) :
    handleSend input sess = sess := by
  have h1 : input.toList.dropWhile jsIsSpace = [] := by
    rw [List.dropWhile_eq_nil_iff]
    exact fun x hx => List.all_eq_true.mp h x hx
  have htrim : jsTrim input = "" := by
    unfold jsTrim
    rw [h1]
    rfl
  simp [handleSend, htrim]

/-- C6 witness: a two-space input on the freshly initialized session. -/
theorem c6_blank_input_noop_witness :
    handleSend "  " initSession = initSession :=
  c6_blank_input_noop "  " initSession (by decide)

/-- C9: from any reachable state the next state the engine produces is one
of the three awaiting states and never `idle`. -/
theorem c9_idle_never_reentered (s : ChatState) (_hs : Reachable s) (u : String) :
    ((handleBotResponse s u).2 = ChatState.awaiting_tax_request ∨
     (handleBotResponse s u).2 = ChatState.awaiting_tax_details ∨
     (handleBotResponse s u).2 = ChatState.awaiting_anything_else) ∧
    (handleBotResponse s u).2 ≠ ChatState.idle := by
  have h := nextState_ne_idle s u
  cases hv : (handleBotResponse s u).2 <;> simp_all

/-- C9 witness: the initial reachable state with a concrete utterance. -/
theorem c9_idle_never_reentered_witness :
    ((handleBotResponse ChatState.awaiting_tax_request "hi").2 = ChatState.awaiting_tax_request ∨
     (handleBotResponse ChatState.awaiting_tax_request "hi").2 = ChatState.awaiting_tax_details ∨
     (handleBotResponse ChatState.awaiting_tax_request "hi").2 = ChatState.awaiting_anything_else) ∧
    (handleBotResponse ChatState.awaiting_tax_request "hi").2 ≠ ChatState.idle :=
  c9_idle_never_reentered ChatState.awaiting_tax_request Reachable.init "hi"

set_option maxRecDepth 8000 in
/-- C1 counterexample: the claim reads as exact-decimal arithmetic
("grossPay = hours * rate ... formatted to two decimal places"), and on
that reading the matched input with hours 1 and rate 1.005 must show
`$1.01` (1 * 1.005 = 1.005 rounds up at two decimals); the program
instead computes in binary64, where `parseFloat("1.005")` is below 1.005
and `toFixed(2)` renders `1.00`, so the reply carries `$1.00` and `$1.01`
appears nowhere in it. -/
theorem c1_exact_decimal_counterexample :
    taxMatch ceInput =
      some { hours := "1", rate := "1.005", stateName := "A",
             countyName := "B", cityName := "C" } ∧
    specToFixed2 (JsNum.mul (specParseFloat "1".toList) (specParseFloat "1.005".toList)) =
      "1.01" ∧
    containsSub (handleBotResponse ChatState.awaiting_tax_details ceInput).1
      "Gross Pay: $1.00" = true ∧
    containsSub (handleBotResponse ChatState.awaiting_tax_details ceInput).1
      "$1.01" = false ∧
    (handleBotResponse ChatState.awaiting_tax_details ceInput).2 =
      ChatState.awaiting_anything_else := by
  refine ⟨by decide, by decide, by decide, by decide, by decide⟩

set_option maxRecDepth 8000 in
/-- C1 (amended): in `awaiting_tax_details`, every utterance the slot
regex matches gets a reply that reports city, county and state together
with the binary64 computation the code performs — grossPay = hours times
rate, taxes = grossPay times (0.12 + 0.05), netPay = grossPay minus
taxes, every operation rounded to the nearest double — each amount
rendered by `toFixed(2)` (exactly two decimal places for finite amounts
below 10^21), and the state moves to `awaiting_anything_else`; in
particular the worked example input yields "$1400.00", "$238.00" and
"$1162.00" inside a reply containing "NYC, Kings County, NY". -/
theorem c1_tax_computation :
    (∀ (u : String) (sl : TaxSlots), taxMatch u = some sl →
      handleBotResponse ChatState.awaiting_tax_details u =
        ("Estimated taxes for " ++ sl.cityName ++ ", " ++ sl.countyName ++ " County, " ++
            sl.stateName ++ ":\nGross Pay: $" ++
            jsToFixed2 (F64.mul (jsParseFloat sl.hours.toList) (jsParseFloat sl.rate.toList)) ++
            "\nTaxes: $" ++
            jsToFixed2 (F64.mul
              (F64.mul (jsParseFloat sl.hours.toList) (jsParseFloat sl.rate.toList))
              (F64.add (roundF64 12 100) (roundF64 5 100))) ++
            "\nNet Pay: $" ++
            jsToFixed2 (F64.sub
              (F64.mul (jsParseFloat sl.hours.toList) (jsParseFloat sl.rate.toList))
              (F64.mul
                (F64.mul (jsParseFloat sl.hours.toList) (jsParseFloat sl.rate.toList))
                (F64.add (roundF64 12 100) (roundF64 5 100)))) ++
            "\n(Note: this is an estimate.)\n\nWould you like help with anything else?",
          ChatState.awaiting_anything_else)) ∧
    taxMatch demoInput = some demoSlots ∧
    handleBotResponse ChatState.awaiting_tax_details demoInput =
      ("Estimated taxes for NYC, Kings County, NY:\nGross Pay: $1400.00\nTaxes: $238.00\nNet Pay: $1162.00\n(Note: this is an estimate.)\n\nWould you like help with anything else?",
        ChatState.awaiting_anything_else) ∧
    containsSub (handleBotResponse ChatState.awaiting_tax_details demoInput).1
      "NYC, Kings County, NY" = true ∧
    containsSub (handleBotResponse ChatState.awaiting_tax_details demoInput).1
      "$1400.00" = true ∧
    containsSub (handleBotResponse ChatState.awaiting_tax_details demoInput).1
      "$238.00" = true ∧
    containsSub (handleBotResponse ChatState.awaiting_tax_details demoInput).1
      "$1162.00" = true := by
  refine ⟨fun u sl h => ?_, by decide, by decide, by decide, by decide, by decide, by decide⟩
  simp only [handleBotResponse, h]
  rfl

set_option maxRecDepth 8000 in
/-- C1 witness: the universal part applied to the worked example. -/
theorem c1_tax_computation_witness :
    taxMatch demoInput = some demoSlots ∧
    handleBotResponse ChatState.awaiting_tax_details demoInput =
      ("Estimated taxes for " ++ demoSlots.cityName ++ ", " ++ demoSlots.countyName ++
          " County, " ++ demoSlots.stateName ++ ":\nGross Pay: $" ++
          jsToFixed2 (F64.mul (jsParseFloat demoSlots.hours.toList)
            (jsParseFloat demoSlots.rate.toList)) ++
          "\nTaxes: $" ++
          jsToFixed2 (F64.mul
            (F64.mul (jsParseFloat demoSlots.hours.toList) (jsParseFloat demoSlots.rate.toList))
            (F64.add (roundF64 12 100) (roundF64 5 100))) ++
          "\nNet Pay: $" ++
          jsToFixed2 (F64.sub
            (F64.mul (jsParseFloat demoSlots.hours.toList) (jsParseFloat demoSlots.rate.toList))
            (F64.mul
              (F64.mul (jsParseFloat demoSlots.hours.toList) (jsParseFloat demoSlots.rate.toList))
              (F64.add (roundF64 12 100) (roundF64 5 100)))) ++
          "\n(Note: this is an estimate.)\n\nWould you like help with anything else?",
        ChatState.awaiting_anything_else) :=
  ⟨by decide, c1_tax_computation.1 demoInput demoSlots (by decide)⟩

set_option maxRecDepth 8000 in
/-- C5 counterexample: the claim exempts only `awaiting_anything_else` with
an utterance containing "no", but the two variants already disagree on the
matched tax-details branch (the state `awaiting_tax_details` is not the
exempted one): variant 2 renders the reply with 12-space indentation on
every line after the first, so the replies differ. -/
theorem c5_variants_counterexample :
    handleBotResponse ChatState.awaiting_tax_details demoInput ≠
      handleBotResponse2 ChatState.awaiting_tax_details demoInput ∧
    ChatState.awaiting_tax_details ≠ ChatState.awaiting_anything_else ∧
    containsSub (jsToLower demoInput) "no" = false := by
  exact ⟨by decide, by decide, by decide⟩

/-- C5 (amended): the two variants agree on every (state, utterance) pair
except two: (a) in `awaiting_anything_else` on an utterance containing
"no", both reply the thanks message but variant 1 moves to
`awaiting_tax_request` while variant 2 moves to `awaiting_anything_else`;
(b) in `awaiting_tax_details` on an utterance the slot regex matches, both
move to `awaiting_anything_else` but variant 1 replies with the
unindented template and variant 2 with the indented one. -/
theorem c5_variants_agree_amended (s : ChatState) (u : String) :
    (¬(s = ChatState.awaiting_anything_else ∧ containsSub (jsToLower u) "no" = true) →
     ¬(s = ChatState.awaiting_tax_details ∧ (taxMatch u).isSome = true) →
      handleBotResponse s u = handleBotResponse2 s u) ∧
    (s = ChatState.awaiting_anything_else → containsSub (jsToLower u) "no" = true →
      (handleBotResponse s u).1 = thanksMsg ∧
      (handleBotResponse2 s u).1 = thanksMsg ∧
      (handleBotResponse s u).2 = ChatState.awaiting_tax_request ∧
      (handleBotResponse2 s u).2 = ChatState.awaiting_anything_else) ∧
    (∀ sl : TaxSlots, s = ChatState.awaiting_tax_details → taxMatch u = some sl →
      (handleBotResponse s u).2 = ChatState.awaiting_anything_else ∧
      (handleBotResponse2 s u).2 = ChatState.awaiting_anything_else ∧
      (handleBotResponse s u).1 = taxReply sl ∧
      (handleBotResponse2 s u).1 = taxReply2 sl) := by
  refine ⟨fun h1 h2 => ?_, fun hs hno => ?_, fun sl hs hm => ?_⟩
  · cases s with
    | idle => rfl
    | awaiting_tax_request => rfl
    | awaiting_tax_details =>
        have hm : taxMatch u = none := by
          cases htm : taxMatch u with
          | none => rfl
          | some sl => exact absurd ⟨rfl, by simp [htm]⟩ h2
        simp [handleBotResponse, handleBotResponse2, hm]
    | awaiting_anything_else =>
        have hno : containsSub (jsToLower u) "no" = false := by
          cases hc : containsSub (jsToLower u) "no" with
          | false => rfl
          | true => exact absurd ⟨rfl, hc⟩ h1
        simp [handleBotResponse, handleBotResponse2, hno]
  · subst hs
    simp [handleBotResponse, handleBotResponse2, hno]
  · subst hs
    simp [handleBotResponse, handleBotResponse2, hm]

/-- C5 witness: a pair outside both exceptions, where the variants agree. -/
theorem c5_variants_agree_amended_witness :
    handleBotResponse ChatState.idle "hello" = handleBotResponse2 ChatState.idle "hello" :=
  (c5_variants_agree_amended ChatState.idle "hello").1 (by decide) (by decide)

/-- Helper: folding `handleSend` over any inputs preserves the head of a
nonempty message list, because each step either keeps the list or appends
to its end. -/
theorem head?_foldl_handleSend (inputs : List String) (sess : Session) (m : Message)
    (h : sess.messages.head? = some m) :
    ((inputs.foldl (fun s i => handleSend i s) sess).messages).head? = some m := by
  induction inputs generalizing sess with
  | nil => exact h
  | cons i rest ih =>
      apply ih
      show (handleSend i sess).messages.head? = some m
      unfold handleSend
      split
      · exact h
      · cases hm : sess.messages with
        | nil => rw [hm] at h; cases h
        | cons a l =>
            rw [hm] at h
            simp only [List.head?] at h
            simp [hm, h]

/-- C8 counterexample: the single-space submission is a non-empty string,
yet it appends nothing at all — not the two messages the claim promises
for every non-empty submission — because `handleSend` drops any input that
trims to the empty string. -/
theorem c8_append_only_counterexample :
    (handleSend " " initSession).messages = initSession.messages ∧
    ¬((handleSend " " initSession).messages =
        initSession.messages ++
          [{ sender := Sender.user, text := " " },
           { sender := Sender.bot, text := (handleBotResponse initSession.state " ").1 }]) ∧
    " " ≠ "" := by
  exact ⟨by decide, by decide, by decide⟩

/-- C8 (amended): the message list starts as exactly the greeting with the
state `awaiting_tax_request`; every submission leaves the existing messages
in place as a prefix (append-only, never mutated, reordered or removed);
every submission that is non-empty after trimming whitespace appends
exactly the user message followed by the bot reply; and in every session
the first message is always the greeting. -/
theorem c8_message_log_invariants :
    initSession.messages = [{ sender := Sender.bot, text := greeting }] ∧
    initSession.state = ChatState.awaiting_tax_request ∧
    (∀ (input : String) (sess : Session),
      sess.messages <+: (handleSend input sess).messages) ∧
    (∀ (input : String) (sess : Session), jsTrim input ≠ "" →
      (handleSend input sess).messages =
        sess.messages ++
          [{ sender := Sender.user, text := input },
           { sender := Sender.bot, text := (handleBotResponse sess.state input).1 }]) ∧
    (∀ inputs : List String,
      (runSession inputs).messages.head? = some { sender := Sender.bot, text := greeting }) := by
  refine ⟨rfl, rfl, fun input sess => ?_, fun input sess h => ?_, fun inputs => ?_⟩
  · unfold handleSend
    split
    · exact List.prefix_rfl
    · exact List.prefix_append _ _
  · unfold handleSend
    rw [if_neg h]
  · exact head?_foldl_handleSend inputs initSession _ rfl

/-- C8 witness: the append clause at a concrete input and session. -/
theorem c8_message_log_invariants_witness :
    (handleSend "no" initSession).messages =
      initSession.messages ++
        [{ sender := Sender.user, text := "no" },
         { sender := Sender.bot, text := (handleBotResponse initSession.state "no").1 }] :=
  c8_message_log_invariants.2.2.2.1 "no" initSession (by decide)

/-- `JsNum.mul` denotes rational multiplication. -/
theorem JsNum.toRat_mul (a b : JsNum) :
    (JsNum.mul a b).toRat = a.toRat * b.toRat := by
  simp only [JsNum.mul, JsNum.toRat]
  push_cast
  rw [div_mul_div_comm]

/-- `JsNum.add` denotes rational addition (denominators nonzero). -/
theorem JsNum.toRat_add (a b : JsNum) (ha : a.den ≠ 0) (hb : b.den ≠ 0) :
    (JsNum.add a b).toRat = a.toRat + b.toRat := by
  have ha' : (a.den : ℚ) ≠ 0 := Nat.cast_ne_zero.mpr ha
  have hb' : (b.den : ℚ) ≠ 0 := Nat.cast_ne_zero.mpr hb
  simp only [JsNum.add, JsNum.toRat]
  push_cast
  field_simp
  try ring

/-- `JsNum.sub` denotes rational subtraction (denominators nonzero). -/
theorem JsNum.toRat_sub (a b : JsNum) (ha : a.den ≠ 0) (hb : b.den ≠ 0) :
    (JsNum.sub a b).toRat = a.toRat - b.toRat := by
  have ha' : (a.den : ℚ) ≠ 0 := Nat.cast_ne_zero.mpr ha
  have hb' : (b.den : ℚ) ≠ 0 := Nat.cast_ne_zero.mpr hb
  simp only [JsNum.sub, JsNum.toRat]
  push_cast
  field_simp
  try ring
